import Mathlib

/-!
Shallow embedding of the `joyvm` class-file decoder (src/classes.rs and
src/classloader.rs).

The byte cursor (`bytes::Buf`) is modelled as a `List Nat` of the remaining
bytes, consumed from the front; `remaining()` is the list length, and the
big-endian fixed-width reads are arithmetic on the leading bytes.  Every
`deserialize` function takes the remaining bytes and returns `Except` of the
decoded value together with the bytes left over, mirroring cursor
advancement.  Rust `u8/u16/u32/u64` values are `Nat`s (the decoder never
performs wrapping arithmetic on them); `f32`/`f64` constants are kept as
their raw big-endian bit patterns, which is exactly what `get_f32_be` /
`get_f64_be` reinterpret (the spec requires NaN payloads be preserved
bit-for-bit, so the bit-pattern view is the faithful one).  Rust `String`s
decoded from UTF-8 are modelled as their lists of Unicode scalar values.
-/

/-- The remaining input bytes of the cursor (each entry is one byte, 0–255). -/
abbrev Bytes := List Nat

/-- Byte at offset `i` of the remaining input (defined inputs always stay in
range because every read is guarded by a `remaining()` check first). -/
def byteAt (data : Bytes) (i : Nat) : Nat := data.getD i 0

/-- Big-endian `get_u16_be` on the first two remaining bytes. -/
def readU16 (data : Bytes) : Nat := byteAt data 0 * 256 + byteAt data 1

/-- Big-endian `get_u32_be` on the first four remaining bytes. -/
def readU32 (data : Bytes) : Nat := readU16 data * 65536 + readU16 (data.drop 2)

/-- Big-endian `get_u64_be` on the first eight remaining bytes. -/
def readU64 (data : Bytes) : Nat := readU32 data * 4294967296 + readU32 (data.drop 4)

/-- Model of `pub struct ConstantIndex(pub u16)` from classes.rs. -/
structure ConstantIndex where
  val : Nat
deriving DecidableEq, Repr

/-- Model of `pub struct MethodIndex(pub u16)` from classes.rs. -/
structure MethodIndex where
  val : Nat
deriving DecidableEq, Repr

/-- Model of `pub enum MethodHandle` from classes.rs: nine reference kinds, each
wrapping one constant-pool index. -/
inductive MethodHandle where
  | GetField (index : ConstantIndex)
  | GetStatic (index : ConstantIndex)
  | PutField (index : ConstantIndex)
  | PutStatic (index : ConstantIndex)
  | InvokeVirtual (index : ConstantIndex)
  | InvokeStatic (index : ConstantIndex)
  | InvokeSpecial (index : ConstantIndex)
  | NewInvokeSpecial (index : ConstantIndex)
  | InvokeInterface (index : ConstantIndex)
deriving DecidableEq, Repr

/-- Model of `pub enum Constant` from classes.rs.  `Utf8` carries the decoded text as
its list of Unicode scalar values; `Float`/`Double` carry the raw IEEE-754
bit pattern read from the stream; `Dummy` is the occupied-but-empty
placeholder slot after a Long/Double entry. -/
inductive Constant where
  | Utf8 (s : List Nat)
  | Integer (v : Nat)
  | Float (bits : Nat)
  | Long (v : Nat)
  | Double (bits : Nat)
  | ClassRef (index : ConstantIndex)
  | StringRef (index : ConstantIndex)
  | FieldRef (cls : ConstantIndex) (name_and_type : ConstantIndex)
  | MethodRef (cls : ConstantIndex) (name_and_type : ConstantIndex)
  | InterfaceMethodRef (cls : ConstantIndex) (name_and_type : ConstantIndex)
  | NameAndTypeRef (name : ConstantIndex) (descriptor : ConstantIndex)
  | MethodHandleRef (handle : MethodHandle)
  | MethodType (index : ConstantIndex)
  | InvokeDynamicInfo (bootstrap_method_attr : MethodIndex) (name_and_type : ConstantIndex)
  | Dummy
deriving DecidableEq, Repr

/-- Model of `pub enum ConstantLookupError` from classes.rs. -/
inductive ConstantLookupError where
  | OutOfRange (index : Nat)
  | ZeroIndex
  | IndexInsideDoubleWidthConstant (index : Nat)
deriving DecidableEq, Repr

/-- Model of `ConstantIndex::lookup` from classes.rs: resolve a 1-based pool index to
the entry it designates.  Rust returns `&Constant`; the pure model returns
the entry value (the pool is read-only here, so "leaving the pool unchanged"
is inherent). -/
def ConstantIndex.lookup (self : ConstantIndex) (constant_pool : List Constant) :
    Except ConstantLookupError Constant :=
  if self.val = 0 then
    .error .ZeroIndex
  else if constant_pool.length < self.val then
    .error (.OutOfRange self.val)
  else
    let constant := constant_pool.getD (self.val - 1) Constant.Dummy
    if constant = Constant.Dummy then
      .error (.IndexInsideDoubleWidthConstant self.val)
    else
      .ok constant

/-- Model of `pub struct ExceptionTableRow` from classes.rs. -/
structure ExceptionTableRow where
  start_pc : Nat
  end_pc : Nat
  handler_pc : Nat
  catch_type : ConstantIndex
deriving DecidableEq, Repr

/-- Model of `pub enum VerificationType` from classes.rs.  The decoder
(`VerificationType::deserialize` in classloader.rs) stores the 16-bit
allocation-site offset inside the `Uninitialized` variant, so that variant
carries the offset here, as the spec describes. -/
inductive VerificationType where
  | Top
  | Integer
  | Float
  | Long
  | Double
  | Null
  | UninitializedThis
  | Object (index : ConstantIndex)
  | Uninitialized (offset : Nat)
deriving DecidableEq, Repr

/-- Model of `pub enum StackMapFrame` from classes.rs. -/
inductive StackMapFrame where
  | SameFrame (offset_delta : Nat)
  | SameLocalsOneStackItemFrame (offset_delta : Nat) (stack_item : VerificationType)
  | SameLocalsOneStackFrameExtended (offset_delta : Nat) (stack_item : VerificationType)
  | ChopFrame (offset_delta : Nat) (num_absent_locals : Nat)
  | SameFrameExtended (offset_delta : Nat)
  | AppendFrame (offset_delta : Nat) (new_locals : List VerificationType)
  | FullFrame (offset_delta : Nat) (locals : List VerificationType)
      (stack_items : List VerificationType)
deriving DecidableEq, Repr

/-- Model of `pub enum Attribute` from classes.rs, restricted to the three variants
the decoder can actually construct (`ConstantValue`, `Code`,
`StackMapTable`).  The remaining variants of the source enum exist only in
the data model and are never wired into the decoder dispatch, which the
spec treats as out of scope. -/
inductive Attribute where
  | ConstantValue (attribute_name : ConstantIndex) (constant_value : ConstantIndex)
  | Code (attribute_name : ConstantIndex) (max_stack : Nat) (max_locals : Nat)
      (code : Bytes) (exception_table : List ExceptionTableRow)
      (attributes : List Attribute)
  | StackMapTable (attribute_name : ConstantIndex) (entries : List StackMapFrame)

/-- Model of `pub enum ClassLoaderError` from classloader.rs.  `Eof` carries the
context string passed to the `require!` macro; `Utf8` abstracts away the
`str::Utf8Error` payload (the position of the first invalid byte), which no
decoder logic inspects; `UnknownAttributeType` carries the attribute name
text as scalar values. -/
inductive ClassLoaderError where
  | Utf8
  | Eof (context : String)
  | InvalidConstantRef (cause : ConstantLookupError)
  | InvalidConstantType (tag : Nat)
  | InvalidMethodHandleKind (kind : Nat)
  | InvalidAttributeType (attribute_type : Constant)
  | InvalidStackFrameType (frame_type : Nat)
  | InvalidVerificationType (type_id : Nat)
  | LengthMismatch (context : String) (stated_length : Nat) (inferred_length : Nat)
  | Misc (msg : String)
  | UnknownAttributeType (type_name : List Nat)
deriving DecidableEq, Repr

/-- Whether a byte is a UTF-8 continuation byte (`10xxxxxx`). -/
def isUtf8Cont (b : Nat) : Bool := decide (128 ≤ b ∧ b ≤ 191)

/-- Model of `str::from_utf8` as used by the decoder: validate a byte sequence as
UTF-8 and return the list of Unicode scalar values, or `none` on the first
invalid sequence.  This follows the standard UTF-8 rules Rust enforces:
no overlong encodings, no surrogates (0xD800–0xDFFF), nothing above
0x10FFFF, and complete continuation bytes. -/
def utf8Decode : List Nat → Option (List Nat)
  | [] => some []
  | b :: rest =>
    if b ≤ 0x7F then
      (utf8Decode rest).map (fun cs => b :: cs)
    else if 0xC2 ≤ b ∧ b ≤ 0xDF then
      match rest with
      | b2 :: rest2 =>
        if isUtf8Cont b2 then
          (utf8Decode rest2).map (fun cs => ((b - 0xC0) * 64 + (b2 - 0x80)) :: cs)
        else none
      | [] => none
    else if 0xE0 ≤ b ∧ b ≤ 0xEF then
      match rest with
      | b2 :: b3 :: rest3 =>
        let secondOk :=
          if b = 0xE0 then decide (0xA0 ≤ b2 ∧ b2 ≤ 0xBF)
          else if b = 0xED then decide (0x80 ≤ b2 ∧ b2 ≤ 0x9F)
          else isUtf8Cont b2
        if secondOk && isUtf8Cont b3 then
          (utf8Decode rest3).map
            (fun cs => ((b - 0xE0) * 4096 + (b2 - 0x80) * 64 + (b3 - 0x80)) :: cs)
        else none
      | _ => none
    else if 0xF0 ≤ b ∧ b ≤ 0xF4 then
      match rest with
      | b2 :: b3 :: b4 :: rest4 =>
        let secondOk :=
          if b = 0xF0 then decide (0x90 ≤ b2 ∧ b2 ≤ 0xBF)
          else if b = 0xF4 then decide (0x80 ≤ b2 ∧ b2 ≤ 0x8F)
          else isUtf8Cont b2
        if secondOk && isUtf8Cont b3 && isUtf8Cont b4 then
          (utf8Decode rest4).map
            (fun cs =>
              ((b - 0xF0) * 262144 + (b2 - 0x80) * 4096 + (b3 - 0x80) * 64 +
                (b4 - 0x80)) :: cs)
        else none
      | _ => none
    else none

/-- Model of `deserialize_constant_index` from classloader.rs. -/
def deserialize_constant_index (data : Bytes) :
    Except ClassLoaderError (ConstantIndex × Bytes) :=
  if data.length < 2 then .error (.Eof "constant index")
  else .ok (⟨readU16 data⟩, data.drop 2)

/-- Model of `deserialize_method_index` from classloader.rs. -/
def deserialize_method_index (data : Bytes) :
    Except ClassLoaderError (MethodIndex × Bytes) :=
  if data.length < 2 then .error (.Eof "method index")
  else .ok (⟨readU16 data⟩, data.drop 2)

/-- Model of `deserialize_utf8` from classloader.rs: 16-bit length, then that many
bytes validated as UTF-8. -/
def deserialize_utf8 (data : Bytes) : Except ClassLoaderError (Constant × Bytes) :=
  if data.length < 2 then .error (.Eof "length field of Utf8 constant")
  else
    let length := readU16 data
    let rest := data.drop 2
    if rest.length < length then .error (.Eof "Utf8 constant")
    else
      match utf8Decode (rest.take length) with
      | some s => .ok (.Utf8 s, rest.drop length)
      | none => .error .Utf8

/-- Model of `deserialize_integer` from classloader.rs. -/
def deserialize_integer (data : Bytes) : Except ClassLoaderError (Constant × Bytes) :=
  if data.length < 4 then .error (.Eof "Integer constant")
  else .ok (.Integer (readU32 data), data.drop 4)

/-- Model of `deserialize_float` from classloader.rs (raw bit pattern kept). -/
def deserialize_float (data : Bytes) : Except ClassLoaderError (Constant × Bytes) :=
  if data.length < 4 then .error (.Eof "Float constant")
  else .ok (.Float (readU32 data), data.drop 4)

/-- Model of `deserialize_long` from classloader.rs. -/
def deserialize_long (data : Bytes) : Except ClassLoaderError (Constant × Bytes) :=
  if data.length < 8 then .error (.Eof "Long constant")
  else .ok (.Long (readU64 data), data.drop 8)

/-- Model of `deserialize_double` from classloader.rs (raw bit pattern kept). -/
def deserialize_double (data : Bytes) : Except ClassLoaderError (Constant × Bytes) :=
  if data.length < 8 then .error (.Eof "Double constant")
  else .ok (.Double (readU64 data), data.drop 8)

/-- Model of `deserialize_classref` from classloader.rs. -/
def deserialize_classref (data : Bytes) : Except ClassLoaderError (Constant × Bytes) :=
  match deserialize_constant_index data with
  | .error e => .error e
  | .ok (index, rest) => .ok (.ClassRef index, rest)

/-- Model of `deserialize_string` from classloader.rs. -/
def deserialize_string (data : Bytes) : Except ClassLoaderError (Constant × Bytes) :=
  match deserialize_constant_index data with
  | .error e => .error e
  | .ok (index, rest) => .ok (.StringRef index, rest)

/-- Model of `deserialize_fieldref` from classloader.rs: class index then
name-and-type index. -/
def deserialize_fieldref (data : Bytes) : Except ClassLoaderError (Constant × Bytes) :=
  match deserialize_constant_index data with
  | .error e => .error e
  | .ok (cls, rest) =>
    match deserialize_constant_index rest with
    | .error e => .error e
    | .ok (name_and_type, rest2) => .ok (.FieldRef cls name_and_type, rest2)

/-- Model of `deserialize_methodref` from classloader.rs. -/
def deserialize_methodref (data : Bytes) : Except ClassLoaderError (Constant × Bytes) :=
  match deserialize_constant_index data with
  | .error e => .error e
  | .ok (cls, rest) =>
    match deserialize_constant_index rest with
    | .error e => .error e
    | .ok (name_and_type, rest2) => .ok (.MethodRef cls name_and_type, rest2)

/-- Model of `deserialize_interface_method_ref` from classloader.rs. -/
def deserialize_interface_method_ref (data : Bytes) :
    Except ClassLoaderError (Constant × Bytes) :=
  match deserialize_constant_index data with
  | .error e => .error e
  | .ok (cls, rest) =>
    match deserialize_constant_index rest with
    | .error e => .error e
    | .ok (name_and_type, rest2) => .ok (.InterfaceMethodRef cls name_and_type, rest2)

/-- Model of `deserialize_method_handle_ref` from classloader.rs: a 1-byte kind, then
one constant index (read before the kind is validated, as in the source),
then dispatch on the kind. -/
def deserialize_method_handle_ref (data : Bytes) :
    Except ClassLoaderError (Constant × Bytes) :=
  match data with
  | [] => .error (.Eof "method handle ref kind")
  | kind :: rest =>
    match deserialize_constant_index rest with
    | .error e => .error e
    | .ok (index, rest2) =>
      if kind = 1 then .ok (.MethodHandleRef (.GetField index), rest2)
      else if kind = 2 then .ok (.MethodHandleRef (.GetStatic index), rest2)
      else if kind = 3 then .ok (.MethodHandleRef (.PutField index), rest2)
      else if kind = 4 then .ok (.MethodHandleRef (.PutStatic index), rest2)
      else if kind = 5 then .ok (.MethodHandleRef (.InvokeVirtual index), rest2)
      else if kind = 6 then .ok (.MethodHandleRef (.InvokeStatic index), rest2)
      else if kind = 7 then .ok (.MethodHandleRef (.InvokeSpecial index), rest2)
      else if kind = 8 then .ok (.MethodHandleRef (.NewInvokeSpecial index), rest2)
      else if kind = 9 then .ok (.MethodHandleRef (.InvokeInterface index), rest2)
      else .error (.InvalidMethodHandleKind kind)

/-- Model of `deserialize_method_type` from classloader.rs. -/
def deserialize_method_type (data : Bytes) : Except ClassLoaderError (Constant × Bytes) :=
  match deserialize_constant_index data with
  | .error e => .error e
  | .ok (index, rest) => .ok (.MethodType index, rest)

/-- Model of `deserialize_invoke_dynamic_info` from classloader.rs: bootstrap-method
index then name-and-type index. -/
def deserialize_invoke_dynamic_info (data : Bytes) :
    Except ClassLoaderError (Constant × Bytes) :=
  match deserialize_method_index data with
  | .error e => .error e
  | .ok (bootstrap_method_attr, rest) =>
    match deserialize_constant_index rest with
    | .error e => .error e
    | .ok (name_and_type, rest2) =>
      .ok (.InvokeDynamicInfo bootstrap_method_attr name_and_type, rest2)

/-- Model of `impl Deserialize for Constant` from classloader.rs: read the tag byte
and dispatch to the thirteen known encodings; any other tag is
`InvalidConstantType(tag)`. -/
def Constant.deserialize : Bytes → Except ClassLoaderError (Constant × Bytes)
  | [] => .error (.Eof "constant tag")
  | tag :: rest =>
    if tag = 1 then deserialize_utf8 rest
    else if tag = 3 then deserialize_integer rest
    else if tag = 4 then deserialize_float rest
    else if tag = 5 then deserialize_long rest
    else if tag = 6 then deserialize_double rest
    else if tag = 7 then deserialize_classref rest
    else if tag = 8 then deserialize_string rest
    else if tag = 9 then deserialize_fieldref rest
    else if tag = 10 then deserialize_methodref rest
    else if tag = 11 then deserialize_interface_method_ref rest
    else if tag = 15 then deserialize_method_handle_ref rest
    else if tag = 16 then deserialize_method_type rest
    else if tag = 18 then deserialize_invoke_dynamic_info rest
    else .error (.InvalidConstantType tag)

/-- Model of `impl Deserialize for ExceptionTableRow` from classloader.rs: one 8-byte
row (three program counters and a catch-type index). -/
def ExceptionTableRow.deserialize (data : Bytes) :
    Except ClassLoaderError (ExceptionTableRow × Bytes) :=
  if data.length < 8 then .error (.Eof "exception table row")
  else
    .ok ({ start_pc := readU16 data
           end_pc := readU16 (data.drop 2)
           handler_pc := readU16 (data.drop 4)
           catch_type := ⟨readU16 (data.drop 6)⟩ }, data.drop 8)

/-- Model of `deserialize_multiple::<ExceptionTableRow>` from classloader.rs. -/
def deserializeMultipleExceptionRows :
    Nat → Bytes → Except ClassLoaderError (List ExceptionTableRow × Bytes)
  | 0, data => .ok ([], data)
  | count + 1, data =>
    match ExceptionTableRow.deserialize data with
    | .error e => .error e
    | .ok (row, rest) =>
      match deserializeMultipleExceptionRows count rest with
      | .error e => .error e
      | .ok (rows, rest2) => .ok (row :: rows, rest2)

/-- Model of `impl Deserialize for VerificationType` from classloader.rs: dispatch on
the 1-byte kind; 0–6 are the singleton kinds, 7 carries a class index,
8 carries the 16-bit allocation-site offset, 9+ is
`InvalidVerificationType`. -/
def VerificationType.deserialize : Bytes → Except ClassLoaderError (VerificationType × Bytes)
  | [] => .error (.Eof "verification type identifier")
  | type_id :: rest =>
    if type_id = 0 then .ok (.Top, rest)
    else if type_id = 1 then .ok (.Integer, rest)
    else if type_id = 2 then .ok (.Float, rest)
    else if type_id = 3 then .ok (.Double, rest)
    else if type_id = 4 then .ok (.Long, rest)
    else if type_id = 5 then .ok (.Null, rest)
    else if type_id = 6 then .ok (.UninitializedThis, rest)
    else if type_id = 7 then
      match deserialize_constant_index rest with
      | .error e => .error e
      | .ok (index, rest2) => .ok (.Object index, rest2)
    else if type_id = 8 then
      if rest.length < 2 then .error (.Eof "uninitialized variable offset")
      else .ok (.Uninitialized (readU16 rest), rest.drop 2)
    else .error (.InvalidVerificationType type_id)

/-- Model of `deserialize_multiple::<VerificationType>` from classloader.rs. -/
def deserializeMultipleVerificationTypes :
    Nat → Bytes → Except ClassLoaderError (List VerificationType × Bytes)
  | 0, data => .ok ([], data)
  | count + 1, data =>
    match VerificationType.deserialize data with
    | .error e => .error e
    | .ok (vt, rest) =>
      match deserializeMultipleVerificationTypes count rest with
      | .error e => .error e
      | .ok (vts, rest2) => .ok (vt :: vts, rest2)

/-- Model of `impl Deserialize for StackMapFrame` from classloader.rs: total dispatch
on the leading tag byte by (inclusive) ranges, exactly mirroring the source
match arms `0...63`, `64...127`, `247`, `248...250`, `251`, `252...254`,
`255`, catch-all error. -/
def StackMapFrame.deserialize : Bytes → Except ClassLoaderError (StackMapFrame × Bytes)
  | [] => .error (.Eof "stack map frame type")
  | frame_type :: rest =>
    if frame_type ≤ 63 then .ok (.SameFrame frame_type, rest)
    else if frame_type ≤ 127 then
      match VerificationType.deserialize rest with
      | .error e => .error e
      | .ok (stack_item, rest2) =>
        .ok (.SameLocalsOneStackItemFrame (frame_type - 64) stack_item, rest2)
    else if frame_type = 247 then
      if rest.length < 2 then .error (.Eof "extended stack frame offset")
      else
        match VerificationType.deserialize (rest.drop 2) with
        | .error e => .error e
        | .ok (stack_item, rest2) =>
          .ok (.SameLocalsOneStackFrameExtended (readU16 rest) stack_item, rest2)
    else if 248 ≤ frame_type ∧ frame_type ≤ 250 then
      if rest.length < 2 then .error (.Eof "chop frame offset")
      else .ok (.ChopFrame (readU16 rest) (251 - frame_type), rest.drop 2)
    else if frame_type = 251 then
      if rest.length < 2 then .error (.Eof "extended same-frame stack frame offset")
      else .ok (.SameFrameExtended (readU16 rest), rest.drop 2)
    else if 252 ≤ frame_type ∧ frame_type ≤ 254 then
      if rest.length < 2 then .error (.Eof "append frame offset")
      else
        match deserializeMultipleVerificationTypes (frame_type - 251) (rest.drop 2) with
        | .error e => .error e
        | .ok (locals, rest2) => .ok (.AppendFrame (readU16 rest) locals, rest2)
    else if frame_type = 255 then
      if rest.length < 2 then .error (.Eof "full stack frame offset")
      else
        let offset_delta := readU16 rest
        let rest1 := rest.drop 2
        if rest1.length < 2 then .error (.Eof "full stack frame locals count")
        else
          match deserializeMultipleVerificationTypes (readU16 rest1) (rest1.drop 2) with
          | .error e => .error e
          | .ok (locals, rest2) =>
            if rest2.length < 2 then .error (.Eof "full stack frame stack item count")
            else
              match deserializeMultipleVerificationTypes (readU16 rest2) (rest2.drop 2) with
              | .error e => .error e
              | .ok (stack_items, rest3) =>
                .ok (.FullFrame offset_delta locals stack_items, rest3)
    else .error (.InvalidStackFrameType frame_type)

/-- Model of `deserialize_multiple::<StackMapFrame>` from classloader.rs. -/
def deserializeMultipleStackMapFrames :
    Nat → Bytes → Except ClassLoaderError (List StackMapFrame × Bytes)
  | 0, data => .ok ([], data)
  | count + 1, data =>
    match StackMapFrame.deserialize data with
    | .error e => .error e
    | .ok (frame, rest) =>
      match deserializeMultipleStackMapFrames count rest with
      | .error e => .error e
      | .ok (frames, rest2) => .ok (frame :: frames, rest2)

/-- Model of `deserialize_stack_map_table` from classloader.rs: entry count, the
frames, then the consumed-vs-declared length cross-check.  The source casts
the consumed count with `as u32`, truncating it modulo 2^32 before the
comparison, so the model reduces it the same way. -/
def deserialize_stack_map_table (attribute_name : ConstantIndex) (declared_length : Nat)
    (data : Bytes) : Except ClassLoaderError (Attribute × Bytes) :=
  let initial_bytes_remaining := data.length
  if data.length < 2 then .error (.Eof "stack map table entry count")
  else
    match deserializeMultipleStackMapFrames (readU16 data) (data.drop 2) with
    | .error e => .error e
    | .ok (entries, rest) =>
      let actual_length := (initial_bytes_remaining - rest.length) % 4294967296
      if actual_length ≠ declared_length then
        .error (.LengthMismatch "StackMapTable attribute" declared_length actual_length)
      else .ok (.StackMapTable attribute_name entries, rest)

/-- Model of `deserialize_constant_value` from classloader.rs: the declared length is
checked against 2 before any body byte is touched. -/
def deserialize_constant_value (attribute_name : ConstantIndex) (length : Nat)
    (data : Bytes) : Except ClassLoaderError (Attribute × Bytes) :=
  if length = 2 then
    match deserialize_constant_index data with
    | .error e => .error e
    | .ok (constant_value, rest) => .ok (.ConstantValue attribute_name constant_value, rest)
  else .error (.LengthMismatch "ConstantValue attribute" length 2)

/-- The Unicode scalar values of a string literal (for matching a decoded
attribute name against the source's string patterns). -/
def strCodes (s : String) : List Nat := s.data.map Char.toNat

mutual

/-- Model of `impl DeserializeWithConstants for Attribute` from classloader.rs:
resolve the name index through the pool, require it to be UTF-8 text, read
the 32-bit declared length, then dispatch on the name text.  `fuel` bounds
the recursion through nested Code sub-attributes (the Rust recursion is
bounded by the finite input; every run of the source on a finite buffer is
reproduced here by all sufficiently large fuel values, and fuel exhaustion
is a `Misc` error that never masks a success). -/
def Attribute.deserialize : Nat → Bytes → List Constant → Except ClassLoaderError (Attribute × Bytes)
  | 0, _, _ => .error (.Misc "recursion limit")
  | fuel + 1, data, constants =>
    match deserialize_constant_index data with
    | .error e => .error e
    | .ok (attribute_type_index, rest) =>
      match attribute_type_index.lookup constants with
      | .error e => .error (.InvalidConstantRef e)
      | .ok (.Utf8 attribute_type) =>
        if rest.length < 4 then .error (.Eof "attribute length")
        else
          let length := readU32 rest
          let rest2 := rest.drop 4
          if attribute_type = strCodes "ConstantValue" then
            deserialize_constant_value attribute_type_index length rest2
          else if attribute_type = strCodes "Code" then
            deserialize_code fuel attribute_type_index constants length rest2
          else if attribute_type = strCodes "StackMapTable" then
            deserialize_stack_map_table attribute_type_index length rest2
          else .error (.UnknownAttributeType attribute_type)
      | .ok c => .error (.InvalidAttributeType c)

/-- Model of `deserialize_code` from classloader.rs: max_stack, max_locals, the
length-prefixed code bytes, the exception table, the recursively decoded
sub-attributes, then the consumed-vs-declared length cross-check computed
from the remaining-byte counts.  The source casts the consumed count with
`as u32` before comparing it to the declared u32 length, so the model
reduces it modulo 2^32 the same way — a body consuming 2^32 + n bytes
compares as n. -/
def deserialize_code : Nat → ConstantIndex → List Constant → Nat → Bytes → Except ClassLoaderError (Attribute × Bytes)
  | 0, _, _, _, _ => .error (.Misc "recursion limit")
  | fuel + 1, attribute_name, constants, declared_length, data =>
    let initial_bytes_remaining := data.length
    if data.length < 2 then .error (.Eof "Code attribute max stack size")
    else
      let max_stack := readU16 data
      let d1 := data.drop 2
      if d1.length < 2 then .error (.Eof "Code attribute max locals count")
      else
        let max_locals := readU16 d1
        let d2 := d1.drop 2
        if d2.length < 4 then .error (.Eof "Code attribute inner length")
        else
          let code_length := readU32 d2
          let d3 := d2.drop 4
          if d3.length < code_length then .error (.Eof "Code attribute code body")
          else
            let code := d3.take code_length
            let d4 := d3.drop code_length
            if d4.length < 2 then .error (.Eof "Code attribute exception table length")
            else
              match deserializeMultipleExceptionRows (readU16 d4) (d4.drop 2) with
              | .error e => .error e
              | .ok (exception_table, d5) =>
                if d5.length < 2 then .error (.Eof "Code attribute subattribute count")
                else
                  match deserializeMultipleAttributes fuel (readU16 d5) (d5.drop 2) constants with
                  | .error e => .error e
                  | .ok (attributes, d6) =>
                    let actual_length := (initial_bytes_remaining - d6.length) % 4294967296
                    if actual_length ≠ declared_length then
                      .error (.LengthMismatch "Code attribute" declared_length actual_length)
                    else
                      .ok (.Code attribute_name max_stack max_locals code
                             exception_table attributes, d6)

/-- Model of `deserialize_multiple_with_constants::<Attribute>` from classloader.rs. -/
def deserializeMultipleAttributes : Nat → Nat → Bytes → List Constant → Except ClassLoaderError (List Attribute × Bytes)
  | _, 0, data, _ => .ok ([], data)
  | 0, _ + 1, _, _ => .error (.Misc "recursion limit")
  | fuel + 1, count + 1, data, constants =>
    match Attribute.deserialize fuel data constants with
    | .error e => .error e
    | .ok (attr, rest) =>
      match deserializeMultipleAttributes fuel count rest constants with
      | .error e => .error e
      | .ok (attrs, rest2) => .ok (attr :: attrs, rest2)

end

/-- The serialized body of a trivial Code attribute: max_stack = 0,
max_locals = 0, empty code, empty exception table, empty sub-attributes —
2 + 2 + 4 + 0 + 2 + 2 = 12 bytes. -/
def trivialCodeBody : Bytes := [0, 0, 0, 0, 0, 0, 0, 0, 0, 0, 0, 0]

/-- A Code body whose code_length field is 2^32 - 1: max_stack = 0,
max_locals = 0, a 4294967295-byte code array, empty exception table, empty
sub-attributes.  Its body consumes 8 + 4294967295 + 4 = 4294967307 bytes,
which the `as u32` cast truncates to 11 before the declared-length
comparison. -/
def hugeCodeBody : Bytes :=
  [0, 0, 0, 0, 255, 255, 255, 255] ++ (List.replicate 4294967295 0 ++ [0, 0, 0, 0])

/-! ## Theorems about the embedded decoder -/

/-- C3: index resolution over any pool: index 0 fails with `ZeroIndex`
regardless of pool contents; an index exceeding the pool's highest valid
slot fails with `OutOfRange(index)`; an index whose slot holds the
placeholder (`Dummy`) fails with `IndexInsideDoubleWidthConstant(index)`;
otherwise it returns the entry at slot `index - 1` (1-based indexing).  The
pool is a read-only argument, so it is left unchanged by construction. -/
theorem lookup_resolution_spec (index : ConstantIndex) (pool : List Constant) :
    (index.val = 0 → index.lookup pool = .error .ZeroIndex)
    ∧ (index.val ≠ 0 → pool.length < index.val →
        index.lookup pool = .error (.OutOfRange index.val))
    ∧ (index.val ≠ 0 → index.val ≤ pool.length →
        pool.getD (index.val - 1) Constant.Dummy = Constant.Dummy →
        index.lookup pool = .error (.IndexInsideDoubleWidthConstant index.val))
    ∧ (index.val ≠ 0 → index.val ≤ pool.length →
        pool.getD (index.val - 1) Constant.Dummy ≠ Constant.Dummy →
        index.lookup pool = .ok (pool.getD (index.val - 1) Constant.Dummy)) := by
  refine ⟨?_, ?_, ?_, ?_⟩ <;> intros <;>
    simp_all [ConstantIndex.lookup]

/-- C3 witness: looking up index 0 in the empty pool is `ZeroIndex`. -/
theorem lookup_resolution_spec_witness :
    (ConstantIndex.mk 0).lookup [] = .error .ZeroIndex :=
  (lookup_resolution_spec ⟨0⟩ []).1 rfl

/-- C4: verification-type decoding dispatches on the 1-byte kind: kinds 0–6
yield the singleton kinds in order (top, integer, float, double, long,
null, uninitialized-this), kind 7 reads a further 2-byte class index into
`Object`, kind 8 reads a further 2-byte allocation-site offset into
`Uninitialized`, and every kind 9–255 fails with
`InvalidVerificationType(kind)`. -/
theorem verification_type_dispatch_spec :
    (∀ rest : Bytes, VerificationType.deserialize (0 :: rest) = .ok (.Top, rest))
    ∧ (∀ rest : Bytes, VerificationType.deserialize (1 :: rest) = .ok (.Integer, rest))
    ∧ (∀ rest : Bytes, VerificationType.deserialize (2 :: rest) = .ok (.Float, rest))
    ∧ (∀ rest : Bytes, VerificationType.deserialize (3 :: rest) = .ok (.Double, rest))
    ∧ (∀ rest : Bytes, VerificationType.deserialize (4 :: rest) = .ok (.Long, rest))
    ∧ (∀ rest : Bytes, VerificationType.deserialize (5 :: rest) = .ok (.Null, rest))
    ∧ (∀ rest : Bytes, VerificationType.deserialize (6 :: rest) = .ok (.UninitializedThis, rest))
    ∧ (∀ rest : Bytes, 2 ≤ rest.length →
        VerificationType.deserialize (7 :: rest) = .ok (.Object ⟨readU16 rest⟩, rest.drop 2))
    ∧ (∀ rest : Bytes, 2 ≤ rest.length →
        VerificationType.deserialize (8 :: rest) = .ok (.Uninitialized (readU16 rest), rest.drop 2))
    ∧ (∀ (kind : Nat) (rest : Bytes), 9 ≤ kind → kind ≤ 255 →
        VerificationType.deserialize (kind :: rest) = .error (.InvalidVerificationType kind)) := by
  refine ⟨fun _ => rfl, fun _ => rfl, fun _ => rfl, fun _ => rfl, fun _ => rfl,
    fun _ => rfl, fun _ => rfl, ?_, ?_, ?_⟩
  · intro rest h
    simp [VerificationType.deserialize, deserialize_constant_index, Nat.not_lt.mpr h]
  · intro rest h
    simp [VerificationType.deserialize, Nat.not_lt.mpr h]
  · intro kind rest h9 _
    simp only [VerificationType.deserialize]
    repeat rw [if_neg (by omega)]

/-- C4 witness: kind 9 on any remaining bytes is rejected. -/
theorem verification_type_dispatch_spec_witness :
    VerificationType.deserialize [9] = .error (.InvalidVerificationType 9) :=
  verification_type_dispatch_spec.2.2.2.2.2.2.2.2.2 9 [] (by decide) (by decide)

/-- C7: for a ConstantValue attribute, every declared length other than 2
fails with `LengthMismatch` before any body byte is consumed (the error
holds for arbitrary body bytes, including none at all), and declared length
exactly 2 yields `ConstantValue` carrying the name index and the 2-byte
constant index read from the body. -/
theorem constant_value_length_spec (attribute_name : ConstantIndex) (length : Nat)
    (data : Bytes) :
    (length ≠ 2 → deserialize_constant_value attribute_name length data =
        .error (.LengthMismatch "ConstantValue attribute" length 2))
    ∧ (length = 2 → 2 ≤ data.length →
        deserialize_constant_value attribute_name length data =
          .ok (.ConstantValue attribute_name ⟨readU16 data⟩, data.drop 2)) := by
  constructor
  · intro h
    simp [deserialize_constant_value, h]
  · intro h h2
    simp [deserialize_constant_value, h, deserialize_constant_index, Nat.not_lt.mpr h2]

/-- C7 witness: declared length 3 fails with `LengthMismatch` even on an
empty body. -/
theorem constant_value_length_spec_witness :
    deserialize_constant_value ⟨1⟩ 3 [] =
      .error (.LengthMismatch "ConstantValue attribute" 3 2) :=
  (constant_value_length_spec ⟨1⟩ 3 []).1 (by decide)

/-- C2: stack-map frame decoding dispatches totally on the single leading
tag byte: 0–63 yield same-frame with offset = tag; 64–127 yield
same-locals-one-stack-item with offset = tag − 64 and one verification-type
operand; 247 the 16-bit-offset extended form; 248–250 chop-frame with
absent-local count 251 − tag; 251 same-frame-extended; 252–254 append-frame
with new-local count tag − 251; 255 full-frame with explicit local and
stack-item counts; and every tag 128–246 fails with
`InvalidStackFrameType(tag)`.  Together the ranges cover every tag 0–255
exactly once. -/
theorem stack_map_frame_dispatch_spec :
    (∀ (t : Nat) (rest : Bytes), t ≤ 63 →
        StackMapFrame.deserialize (t :: rest) = .ok (.SameFrame t, rest))
    ∧ (∀ (t : Nat) (rest rest2 : Bytes) (vt : VerificationType), 64 ≤ t → t ≤ 127 →
        VerificationType.deserialize rest = .ok (vt, rest2) →
        StackMapFrame.deserialize (t :: rest) =
          .ok (.SameLocalsOneStackItemFrame (t - 64) vt, rest2))
    ∧ (∀ (rest rest2 : Bytes) (vt : VerificationType), 2 ≤ rest.length →
        VerificationType.deserialize (rest.drop 2) = .ok (vt, rest2) →
        StackMapFrame.deserialize (247 :: rest) =
          .ok (.SameLocalsOneStackFrameExtended (readU16 rest) vt, rest2))
    ∧ (∀ (t : Nat) (rest : Bytes), 248 ≤ t → t ≤ 250 → 2 ≤ rest.length →
        StackMapFrame.deserialize (t :: rest) =
          .ok (.ChopFrame (readU16 rest) (251 - t), rest.drop 2))
    ∧ (∀ rest : Bytes, 2 ≤ rest.length →
        StackMapFrame.deserialize (251 :: rest) =
          .ok (.SameFrameExtended (readU16 rest), rest.drop 2))
    ∧ (∀ (t : Nat) (rest rest2 : Bytes) (locals : List VerificationType),
        252 ≤ t → t ≤ 254 → 2 ≤ rest.length →
        deserializeMultipleVerificationTypes (t - 251) (rest.drop 2) = .ok (locals, rest2) →
        StackMapFrame.deserialize (t :: rest) =
          .ok (.AppendFrame (readU16 rest) locals, rest2))
    ∧ (∀ (rest rest2 rest3 : Bytes) (locals stack_items : List VerificationType),
        2 ≤ rest.length → 2 ≤ (rest.drop 2).length →
        deserializeMultipleVerificationTypes (readU16 (rest.drop 2)) ((rest.drop 2).drop 2) =
          .ok (locals, rest2) →
        2 ≤ rest2.length →
        deserializeMultipleVerificationTypes (readU16 rest2) (rest2.drop 2) =
          .ok (stack_items, rest3) →
        StackMapFrame.deserialize (255 :: rest) =
          .ok (.FullFrame (readU16 rest) locals stack_items, rest3))
    ∧ (∀ (t : Nat) (rest : Bytes), 128 ≤ t → t ≤ 246 →
        StackMapFrame.deserialize (t :: rest) = .error (.InvalidStackFrameType t)) := by
  refine ⟨?_, ?_, ?_, ?_, ?_, ?_, ?_, ?_⟩
  · intro t rest ht
    simp [StackMapFrame.deserialize, ht]
  · intro t rest rest2 vt h64 h127 hvt
    simp only [StackMapFrame.deserialize]
    rw [if_neg (by omega), if_pos (by omega), hvt]
  · intro rest rest2 vt h2 hvt
    simp only [StackMapFrame.deserialize]
    rw [if_neg (by omega), if_neg (by omega), if_true, if_neg (by omega), hvt]
  · intro t rest h248 h250 h2
    simp only [StackMapFrame.deserialize]
    rw [if_neg (by omega), if_neg (by omega), if_neg (by omega), if_pos (by omega),
      if_neg (by omega)]
  · intro rest h2
    simp only [StackMapFrame.deserialize]
    rw [if_neg (by omega), if_neg (by omega), if_neg (by omega), if_neg (by omega),
      if_true, if_neg (by omega)]
  · intro t rest rest2 locals h252 h254 h2 hls
    simp only [StackMapFrame.deserialize]
    rw [if_neg (by omega), if_neg (by omega), if_neg (by omega), if_neg (by omega),
      if_neg (by omega), if_pos (by omega), if_neg (by omega), hls]
  · intro rest rest2 rest3 locals stack_items h2 h2b hls h2c hss
    simp only [StackMapFrame.deserialize]
    rw [if_neg (by omega), if_neg (by omega), if_neg (by omega), if_neg (by omega),
      if_neg (by omega), if_neg (by omega), if_true, if_neg (by omega),
      if_neg (by omega), hls]
    simp [Nat.not_lt.mpr h2c, hss]
  · intro t rest h128 h246
    simp only [StackMapFrame.deserialize]
    rw [if_neg (by omega), if_neg (by omega), if_neg (by omega), if_neg (by omega),
      if_neg (by omega), if_neg (by omega), if_neg (by omega)]

/-- C2 witness: tag 128 is rejected as `InvalidStackFrameType`, and tag 0
decodes as a same-frame. -/
theorem stack_map_frame_dispatch_spec_witness :
    StackMapFrame.deserialize [128] = .error (.InvalidStackFrameType 128) ∧
    StackMapFrame.deserialize [0] = .ok (.SameFrame 0, []) :=
  ⟨stack_map_frame_dispatch_spec.2.2.2.2.2.2.2 128 [] (by decide) (by decide),
   stack_map_frame_dispatch_spec.1 0 [] (by decide)⟩

/-- C5: a MethodHandle constant (tag 15) reads a 1-byte kind then one
2-byte index; given the two index bytes are present, every kind 0 or ≥ 10
fails with `InvalidMethodHandleKind(kind)` and each kind 1–9 produces the
corresponding method-handle variant wrapping that index. -/
theorem method_handle_kind_spec (kind : Nat) (rest : Bytes) (h : 2 ≤ rest.length) :
    ((kind = 0 ∨ 10 ≤ kind) → deserialize_method_handle_ref (kind :: rest) =
        .error (.InvalidMethodHandleKind kind))
    ∧ (kind = 1 → deserialize_method_handle_ref (kind :: rest) =
        .ok (.MethodHandleRef (.GetField ⟨readU16 rest⟩), rest.drop 2))
    ∧ (kind = 2 → deserialize_method_handle_ref (kind :: rest) =
        .ok (.MethodHandleRef (.GetStatic ⟨readU16 rest⟩), rest.drop 2))
    ∧ (kind = 3 → deserialize_method_handle_ref (kind :: rest) =
        .ok (.MethodHandleRef (.PutField ⟨readU16 rest⟩), rest.drop 2))
    ∧ (kind = 4 → deserialize_method_handle_ref (kind :: rest) =
        .ok (.MethodHandleRef (.PutStatic ⟨readU16 rest⟩), rest.drop 2))
    ∧ (kind = 5 → deserialize_method_handle_ref (kind :: rest) =
        .ok (.MethodHandleRef (.InvokeVirtual ⟨readU16 rest⟩), rest.drop 2))
    ∧ (kind = 6 → deserialize_method_handle_ref (kind :: rest) =
        .ok (.MethodHandleRef (.InvokeStatic ⟨readU16 rest⟩), rest.drop 2))
    ∧ (kind = 7 → deserialize_method_handle_ref (kind :: rest) =
        .ok (.MethodHandleRef (.InvokeSpecial ⟨readU16 rest⟩), rest.drop 2))
    ∧ (kind = 8 → deserialize_method_handle_ref (kind :: rest) =
        .ok (.MethodHandleRef (.NewInvokeSpecial ⟨readU16 rest⟩), rest.drop 2))
    ∧ (kind = 9 → deserialize_method_handle_ref (kind :: rest) =
        .ok (.MethodHandleRef (.InvokeInterface ⟨readU16 rest⟩), rest.drop 2)) := by
  have hidx : deserialize_constant_index rest = .ok (⟨readU16 rest⟩, rest.drop 2) := by
    simp [deserialize_constant_index, Nat.not_lt.mpr h]
  refine ⟨?_, ?_, ?_, ?_, ?_, ?_, ?_, ?_, ?_, ?_⟩ <;> intro hk
  · simp only [deserialize_method_handle_ref, hidx]
    repeat rw [if_neg (by omega)]
  all_goals subst hk; simp [deserialize_method_handle_ref, hidx]

/-- C5 witness: kind 0 with both index bytes present is rejected, and
kind 9 yields an invoke-interface handle. -/
theorem method_handle_kind_spec_witness :
    deserialize_method_handle_ref [0, 0, 7] = .error (.InvalidMethodHandleKind 0) ∧
    deserialize_method_handle_ref [9, 0, 7] =
      .ok (.MethodHandleRef (.InvokeInterface ⟨7⟩), []) :=
  ⟨(method_handle_kind_spec 0 [0, 7] (by decide)).1 (Or.inl rfl),
   by
    have := (method_handle_kind_spec 9 [0, 7] (by decide)).2.2.2.2.2.2.2.2.2 rfl
    simpa [readU16, byteAt] using this⟩

/-- Consuming a constant index leaves a suffix of the input. -/
lemma deserialize_constant_index_suffix {data r : Bytes} {i : ConstantIndex}
    (h : deserialize_constant_index data = .ok (i, r)) : r <:+ data := by
  unfold deserialize_constant_index at h
  split at h
  · simp at h
  · simp only [Except.ok.injEq, Prod.mk.injEq] at h
    obtain ⟨-, rfl⟩ := h
    exact List.drop_suffix 2 data

/-- Consuming a method index leaves a suffix of the input. -/
lemma deserialize_method_index_suffix {data r : Bytes} {i : MethodIndex}
    (h : deserialize_method_index data = .ok (i, r)) : r <:+ data := by
  unfold deserialize_method_index at h
  split at h
  · simp at h
  · simp only [Except.ok.injEq, Prod.mk.injEq] at h
    obtain ⟨-, rfl⟩ := h
    exact List.drop_suffix 2 data

/-- A successful UTF-8 constant decode yields a `Utf8` value and a suffix of
the input. -/
lemma deserialize_utf8_shape {data : Bytes} {p : Constant × Bytes}
    (h : deserialize_utf8 data = .ok p) : p.1 ≠ Constant.Dummy ∧ p.2 <:+ data := by
  simp only [deserialize_utf8] at h
  split at h
  · simp at h
  · split at h
    · simp at h
    · split at h
      · simp only [Except.ok.injEq] at h
        subst h
        exact ⟨by simp, (List.drop_suffix _ _).trans (List.drop_suffix 2 data)⟩
      · simp at h

/-- A successful Integer decode yields an `Integer` value and a suffix. -/
lemma deserialize_integer_shape {data : Bytes} {p : Constant × Bytes}
    (h : deserialize_integer data = .ok p) : p.1 ≠ Constant.Dummy ∧ p.2 <:+ data := by
  unfold deserialize_integer at h
  split at h
  · simp at h
  · simp only [Except.ok.injEq] at h
    subst h
    exact ⟨by simp, List.drop_suffix 4 data⟩

/-- A successful Float decode yields a `Float` value and a suffix. -/
lemma deserialize_float_shape {data : Bytes} {p : Constant × Bytes}
    (h : deserialize_float data = .ok p) : p.1 ≠ Constant.Dummy ∧ p.2 <:+ data := by
  unfold deserialize_float at h
  split at h
  · simp at h
  · simp only [Except.ok.injEq] at h
    subst h
    exact ⟨by simp, List.drop_suffix 4 data⟩

/-- A successful Long decode yields a `Long` value and a suffix. -/
lemma deserialize_long_shape {data : Bytes} {p : Constant × Bytes}
    (h : deserialize_long data = .ok p) : p.1 ≠ Constant.Dummy ∧ p.2 <:+ data := by
  unfold deserialize_long at h
  split at h
  · simp at h
  · simp only [Except.ok.injEq] at h
    subst h
    exact ⟨by simp, List.drop_suffix 8 data⟩

/-- A successful Double decode yields a `Double` value and a suffix. -/
lemma deserialize_double_shape {data : Bytes} {p : Constant × Bytes}
    (h : deserialize_double data = .ok p) : p.1 ≠ Constant.Dummy ∧ p.2 <:+ data := by
  unfold deserialize_double at h
  split at h
  · simp at h
  · simp only [Except.ok.injEq] at h
    subst h
    exact ⟨by simp, List.drop_suffix 8 data⟩

/-- A successful ClassRef decode yields a `ClassRef` value and a suffix. -/
lemma deserialize_classref_shape {data : Bytes} {p : Constant × Bytes}
    (h : deserialize_classref data = .ok p) : p.1 ≠ Constant.Dummy ∧ p.2 <:+ data := by
  unfold deserialize_classref at h
  split at h
  · simp at h
  · rename_i i r heq
    simp only [Except.ok.injEq] at h
    subst h
    exact ⟨by simp, deserialize_constant_index_suffix heq⟩

/-- A successful StringRef decode yields a `StringRef` value and a suffix. -/
lemma deserialize_string_shape {data : Bytes} {p : Constant × Bytes}
    (h : deserialize_string data = .ok p) : p.1 ≠ Constant.Dummy ∧ p.2 <:+ data := by
  unfold deserialize_string at h
  split at h
  · simp at h
  · rename_i i r heq
    simp only [Except.ok.injEq] at h
    subst h
    exact ⟨by simp, deserialize_constant_index_suffix heq⟩

/-- A successful FieldRef decode yields a `FieldRef` value and a suffix. -/
lemma deserialize_fieldref_shape {data : Bytes} {p : Constant × Bytes}
    (h : deserialize_fieldref data = .ok p) : p.1 ≠ Constant.Dummy ∧ p.2 <:+ data := by
  unfold deserialize_fieldref at h
  split at h
  · simp at h
  · rename_i cls r heq
    split at h
    · simp at h
    · rename_i nat r2 heq2
      simp only [Except.ok.injEq] at h
      subst h
      exact ⟨by simp,
        (deserialize_constant_index_suffix heq2).trans (deserialize_constant_index_suffix heq)⟩

/-- A successful MethodRef decode yields a `MethodRef` value and a suffix. -/
lemma deserialize_methodref_shape {data : Bytes} {p : Constant × Bytes}
    (h : deserialize_methodref data = .ok p) : p.1 ≠ Constant.Dummy ∧ p.2 <:+ data := by
  unfold deserialize_methodref at h
  split at h
  · simp at h
  · rename_i cls r heq
    split at h
    · simp at h
    · rename_i nat r2 heq2
      simp only [Except.ok.injEq] at h
      subst h
      exact ⟨by simp,
        (deserialize_constant_index_suffix heq2).trans (deserialize_constant_index_suffix heq)⟩

/-- A successful InterfaceMethodRef decode yields an `InterfaceMethodRef`
value and a suffix. -/
lemma deserialize_interface_method_ref_shape {data : Bytes} {p : Constant × Bytes}
    (h : deserialize_interface_method_ref data = .ok p) :
    p.1 ≠ Constant.Dummy ∧ p.2 <:+ data := by
  unfold deserialize_interface_method_ref at h
  split at h
  · simp at h
  · rename_i cls r heq
    split at h
    · simp at h
    · rename_i nat r2 heq2
      simp only [Except.ok.injEq] at h
      subst h
      exact ⟨by simp,
        (deserialize_constant_index_suffix heq2).trans (deserialize_constant_index_suffix heq)⟩

/-- A successful MethodHandle decode yields a `MethodHandleRef` value and a
suffix. -/
lemma deserialize_method_handle_ref_shape {data : Bytes} {p : Constant × Bytes}
    (h : deserialize_method_handle_ref data = .ok p) :
    p.1 ≠ Constant.Dummy ∧ p.2 <:+ data := by
  match data with
  | [] => simp [deserialize_method_handle_ref] at h
  | kind :: rest =>
    simp only [deserialize_method_handle_ref] at h
    split at h
    · simp at h
    · rename_i i r heq
      have hsuf : r <:+ kind :: rest :=
        (deserialize_constant_index_suffix heq).trans (List.suffix_cons kind rest)
      split_ifs at h <;>
        (simp only [Except.ok.injEq] at h; subst h; exact ⟨by simp, hsuf⟩)

/-- A successful MethodType decode yields a `MethodType` value and a suffix. -/
lemma deserialize_method_type_shape {data : Bytes} {p : Constant × Bytes}
    (h : deserialize_method_type data = .ok p) : p.1 ≠ Constant.Dummy ∧ p.2 <:+ data := by
  unfold deserialize_method_type at h
  split at h
  · simp at h
  · rename_i i r heq
    simp only [Except.ok.injEq] at h
    subst h
    exact ⟨by simp, deserialize_constant_index_suffix heq⟩

/-- A successful InvokeDynamic decode yields an `InvokeDynamicInfo` value
and a suffix. -/
lemma deserialize_invoke_dynamic_info_shape {data : Bytes} {p : Constant × Bytes}
    (h : deserialize_invoke_dynamic_info data = .ok p) :
    p.1 ≠ Constant.Dummy ∧ p.2 <:+ data := by
  unfold deserialize_invoke_dynamic_info at h
  split at h
  · simp at h
  · rename_i bma r heq
    split at h
    · simp at h
    · rename_i nat r2 heq2
      simp only [Except.ok.injEq] at h
      subst h
      exact ⟨by simp,
        (deserialize_constant_index_suffix heq2).trans (deserialize_method_index_suffix heq)⟩

/-- Unfolding the constant-tag dispatch on a nonempty input. -/
lemma Constant.deserialize_cons (tag : Nat) (rest : Bytes) :
    Constant.deserialize (tag :: rest) =
      if tag = 1 then deserialize_utf8 rest
      else if tag = 3 then deserialize_integer rest
      else if tag = 4 then deserialize_float rest
      else if tag = 5 then deserialize_long rest
      else if tag = 6 then deserialize_double rest
      else if tag = 7 then deserialize_classref rest
      else if tag = 8 then deserialize_string rest
      else if tag = 9 then deserialize_fieldref rest
      else if tag = 10 then deserialize_methodref rest
      else if tag = 11 then deserialize_interface_method_ref rest
      else if tag = 15 then deserialize_method_handle_ref rest
      else if tag = 16 then deserialize_method_type rest
      else if tag = 18 then deserialize_invoke_dynamic_info rest
      else .error (.InvalidConstantType tag) := rfl

/-- Any successful constant decode yields a non-placeholder value and
leaves a suffix of the input bytes. -/
lemma Constant.deserialize_shape {data : Bytes} {p : Constant × Bytes}
    (h : Constant.deserialize data = .ok p) : p.1 ≠ Constant.Dummy ∧ p.2 <:+ data := by
  match data with
  | [] => simp [Constant.deserialize] at h
  | tag :: rest =>
    have hcons : rest <:+ tag :: rest := List.suffix_cons tag rest
    rw [Constant.deserialize_cons] at h
    by_cases h1 : tag = 1
    · rw [if_pos h1] at h
      exact ⟨(deserialize_utf8_shape h).1, (deserialize_utf8_shape h).2.trans hcons⟩
    rw [if_neg h1] at h
    by_cases h3 : tag = 3
    · rw [if_pos h3] at h
      exact ⟨(deserialize_integer_shape h).1, (deserialize_integer_shape h).2.trans hcons⟩
    rw [if_neg h3] at h
    by_cases h4 : tag = 4
    · rw [if_pos h4] at h
      exact ⟨(deserialize_float_shape h).1, (deserialize_float_shape h).2.trans hcons⟩
    rw [if_neg h4] at h
    by_cases h5 : tag = 5
    · rw [if_pos h5] at h
      exact ⟨(deserialize_long_shape h).1, (deserialize_long_shape h).2.trans hcons⟩
    rw [if_neg h5] at h
    by_cases h6 : tag = 6
    · rw [if_pos h6] at h
      exact ⟨(deserialize_double_shape h).1, (deserialize_double_shape h).2.trans hcons⟩
    rw [if_neg h6] at h
    by_cases h7 : tag = 7
    · rw [if_pos h7] at h
      exact ⟨(deserialize_classref_shape h).1, (deserialize_classref_shape h).2.trans hcons⟩
    rw [if_neg h7] at h
    by_cases h8 : tag = 8
    · rw [if_pos h8] at h
      exact ⟨(deserialize_string_shape h).1, (deserialize_string_shape h).2.trans hcons⟩
    rw [if_neg h8] at h
    by_cases h9 : tag = 9
    · rw [if_pos h9] at h
      exact ⟨(deserialize_fieldref_shape h).1, (deserialize_fieldref_shape h).2.trans hcons⟩
    rw [if_neg h9] at h
    by_cases h10 : tag = 10
    · rw [if_pos h10] at h
      exact ⟨(deserialize_methodref_shape h).1, (deserialize_methodref_shape h).2.trans hcons⟩
    rw [if_neg h10] at h
    by_cases h11 : tag = 11
    · rw [if_pos h11] at h
      exact ⟨(deserialize_interface_method_ref_shape h).1, (deserialize_interface_method_ref_shape h).2.trans hcons⟩
    rw [if_neg h11] at h
    by_cases h15 : tag = 15
    · rw [if_pos h15] at h
      exact ⟨(deserialize_method_handle_ref_shape h).1, (deserialize_method_handle_ref_shape h).2.trans hcons⟩
    rw [if_neg h15] at h
    by_cases h16 : tag = 16
    · rw [if_pos h16] at h
      exact ⟨(deserialize_method_type_shape h).1, (deserialize_method_type_shape h).2.trans hcons⟩
    rw [if_neg h16] at h
    by_cases h18 : tag = 18
    · rw [if_pos h18] at h
      exact ⟨(deserialize_invoke_dynamic_info_shape h).1, (deserialize_invoke_dynamic_info_shape h).2.trans hcons⟩
    rw [if_neg h18] at h
    simp at h

/-- Reading a constant index off two leading bytes. -/
lemma deserialize_constant_index_cons (a b : Nat) (rest : Bytes) :
    deserialize_constant_index (a :: b :: rest) = .ok (⟨a * 256 + b⟩, rest) := by
  unfold deserialize_constant_index
  rw [if_neg (by simp)]
  rfl

/-- Reading a method index off two leading bytes. -/
lemma deserialize_method_index_cons (a b : Nat) (rest : Bytes) :
    deserialize_method_index (a :: b :: rest) = .ok (⟨a * 256 + b⟩, rest) := by
  unfold deserialize_method_index
  rw [if_neg (by simp)]
  rfl

/-- C6: constant decoding dispatches on the one-byte tag to exactly the 13
known encodings (UTF-8=1, Integer=3, Float=4, Long=5, Double=6, ClassRef=7,
StringRef=8, FieldRef=9, MethodRef=10, InterfaceMethodRef=11,
MethodHandle=15, MethodType=16, InvokeDynamic=18); every other tag value
0–255 fails with `InvalidConstantType(tag)`; and no input ever makes the
decoder produce the placeholder (`Dummy`) entry. -/
theorem constant_tag_dispatch_spec :
    (∀ rest : Bytes, Constant.deserialize (1 :: rest) = deserialize_utf8 rest)
    ∧ (∀ rest : Bytes, Constant.deserialize (3 :: rest) = deserialize_integer rest)
    ∧ (∀ rest : Bytes, Constant.deserialize (4 :: rest) = deserialize_float rest)
    ∧ (∀ rest : Bytes, Constant.deserialize (5 :: rest) = deserialize_long rest)
    ∧ (∀ rest : Bytes, Constant.deserialize (6 :: rest) = deserialize_double rest)
    ∧ (∀ rest : Bytes, Constant.deserialize (7 :: rest) = deserialize_classref rest)
    ∧ (∀ rest : Bytes, Constant.deserialize (8 :: rest) = deserialize_string rest)
    ∧ (∀ rest : Bytes, Constant.deserialize (9 :: rest) = deserialize_fieldref rest)
    ∧ (∀ rest : Bytes, Constant.deserialize (10 :: rest) = deserialize_methodref rest)
    ∧ (∀ rest : Bytes, Constant.deserialize (11 :: rest) = deserialize_interface_method_ref rest)
    ∧ (∀ rest : Bytes, Constant.deserialize (15 :: rest) = deserialize_method_handle_ref rest)
    ∧ (∀ rest : Bytes, Constant.deserialize (16 :: rest) = deserialize_method_type rest)
    ∧ (∀ rest : Bytes, Constant.deserialize (18 :: rest) = deserialize_invoke_dynamic_info rest)
    ∧ (∀ (tag : Nat) (rest : Bytes), tag < 256 →
        tag ∉ ([1, 3, 4, 5, 6, 7, 8, 9, 10, 11, 15, 16, 18] : List Nat) →
        Constant.deserialize (tag :: rest) = .error (.InvalidConstantType tag))
    ∧ (∀ (data : Bytes) (c : Constant) (rest : Bytes),
        Constant.deserialize data = .ok (c, rest) → c ≠ Constant.Dummy) := by
  refine ⟨fun _ => rfl, fun _ => rfl, fun _ => rfl, fun _ => rfl, fun _ => rfl,
    fun _ => rfl, fun _ => rfl, fun _ => rfl, fun _ => rfl, fun _ => rfl,
    fun _ => rfl, fun _ => rfl, fun _ => rfl, ?_, ?_⟩
  · intro tag rest _ hmem
    simp only [List.mem_cons, List.not_mem_nil, or_false, not_or] at hmem
    obtain ⟨n1, n3, n4, n5, n6, n7, n8, n9, n10, n11, n15, n16, n18⟩ := hmem
    rw [Constant.deserialize_cons, if_neg n1, if_neg n3, if_neg n4, if_neg n5, if_neg n6,
      if_neg n7, if_neg n8, if_neg n9, if_neg n10, if_neg n11, if_neg n15, if_neg n16,
      if_neg n18]
  · intro data c rest h
    exact (Constant.deserialize_shape h).1

/-- C6 witness: tag 2 is rejected. -/
theorem constant_tag_dispatch_spec_witness :
    Constant.deserialize [2] = .error (.InvalidConstantType 2) :=
  constant_tag_dispatch_spec.2.2.2.2.2.2.2.2.2.2.2.2.2.1 2 [] (by decide) (by decide)

/-- C8: for each constant tag with a fixed-width encoding, decoding an
exact-length buffer succeeds with the expected value and consumes the whole
buffer, and the same buffer truncated by its single trailing byte fails
with `Eof` (each field's byte requirement is checked against the remaining
count before the field is read); moreover any successful constant decode
leaves a suffix of the input, so the cursor never moves past the end. -/
theorem fixed_width_eof_spec :
    (∀ b0 b1 b2 b3 : Nat,
        Constant.deserialize [3, b0, b1, b2, b3] =
            .ok (.Integer (readU32 [b0, b1, b2, b3]), [])
        ∧ Constant.deserialize [3, b0, b1, b2] = .error (.Eof "Integer constant"))
    ∧ (∀ b0 b1 b2 b3 : Nat,
        Constant.deserialize [4, b0, b1, b2, b3] =
            .ok (.Float (readU32 [b0, b1, b2, b3]), [])
        ∧ Constant.deserialize [4, b0, b1, b2] = .error (.Eof "Float constant"))
    ∧ (∀ b0 b1 b2 b3 b4 b5 b6 b7 : Nat,
        Constant.deserialize [5, b0, b1, b2, b3, b4, b5, b6, b7] =
            .ok (.Long (readU64 [b0, b1, b2, b3, b4, b5, b6, b7]), [])
        ∧ Constant.deserialize [5, b0, b1, b2, b3, b4, b5, b6] =
            .error (.Eof "Long constant"))
    ∧ (∀ b0 b1 b2 b3 b4 b5 b6 b7 : Nat,
        Constant.deserialize [6, b0, b1, b2, b3, b4, b5, b6, b7] =
            .ok (.Double (readU64 [b0, b1, b2, b3, b4, b5, b6, b7]), [])
        ∧ Constant.deserialize [6, b0, b1, b2, b3, b4, b5, b6] =
            .error (.Eof "Double constant"))
    ∧ (∀ b0 b1 : Nat,
        Constant.deserialize [7, b0, b1] = .ok (.ClassRef ⟨readU16 [b0, b1]⟩, [])
        ∧ Constant.deserialize [7, b0] = .error (.Eof "constant index"))
    ∧ (∀ b0 b1 : Nat,
        Constant.deserialize [8, b0, b1] = .ok (.StringRef ⟨readU16 [b0, b1]⟩, [])
        ∧ Constant.deserialize [8, b0] = .error (.Eof "constant index"))
    ∧ (∀ b0 b1 b2 b3 : Nat,
        Constant.deserialize [9, b0, b1, b2, b3] =
            .ok (.FieldRef ⟨readU16 [b0, b1]⟩ ⟨readU16 [b2, b3]⟩, [])
        ∧ Constant.deserialize [9, b0, b1, b2] = .error (.Eof "constant index"))
    ∧ (∀ b0 b1 b2 b3 : Nat,
        Constant.deserialize [10, b0, b1, b2, b3] =
            .ok (.MethodRef ⟨readU16 [b0, b1]⟩ ⟨readU16 [b2, b3]⟩, [])
        ∧ Constant.deserialize [10, b0, b1, b2] = .error (.Eof "constant index"))
    ∧ (∀ b0 b1 b2 b3 : Nat,
        Constant.deserialize [11, b0, b1, b2, b3] =
            .ok (.InterfaceMethodRef ⟨readU16 [b0, b1]⟩ ⟨readU16 [b2, b3]⟩, [])
        ∧ Constant.deserialize [11, b0, b1, b2] = .error (.Eof "constant index"))
    ∧ (∀ b0 b1 : Nat,
        Constant.deserialize [15, 1, b0, b1] =
            .ok (.MethodHandleRef (.GetField ⟨readU16 [b0, b1]⟩), [])
        ∧ ∀ kind b2 : Nat,
            Constant.deserialize [15, kind, b2] = .error (.Eof "constant index"))
    ∧ (∀ b0 b1 : Nat,
        Constant.deserialize [16, b0, b1] = .ok (.MethodType ⟨readU16 [b0, b1]⟩, [])
        ∧ Constant.deserialize [16, b0] = .error (.Eof "constant index"))
    ∧ (∀ b0 b1 b2 b3 : Nat,
        Constant.deserialize [18, b0, b1, b2, b3] =
            .ok (.InvokeDynamicInfo ⟨readU16 [b0, b1]⟩ ⟨readU16 [b2, b3]⟩, [])
        ∧ Constant.deserialize [18, b0, b1, b2] = .error (.Eof "constant index"))
    ∧ (∀ (data : Bytes) (c : Constant) (rest : Bytes),
        Constant.deserialize data = .ok (c, rest) → rest <:+ data) :=
  ⟨fun _ _ _ _ => ⟨rfl, rfl⟩, fun _ _ _ _ => ⟨rfl, rfl⟩,
   fun _ _ _ _ _ _ _ _ => ⟨rfl, rfl⟩, fun _ _ _ _ _ _ _ _ => ⟨rfl, rfl⟩,
   fun _ _ => ⟨rfl, rfl⟩, fun _ _ => ⟨rfl, rfl⟩,
   fun _ _ _ _ => ⟨rfl, rfl⟩, fun _ _ _ _ => ⟨rfl, rfl⟩, fun _ _ _ _ => ⟨rfl, rfl⟩,
   fun _ _ => ⟨rfl, fun _ _ => rfl⟩,
   fun _ _ => ⟨rfl, rfl⟩, fun _ _ _ _ => ⟨rfl, rfl⟩,
   fun _ _ _ h => (Constant.deserialize_shape h).2⟩

/-- C8 witness: a concrete Integer decode consumes the whole buffer and
leaves a suffix. -/
theorem fixed_width_eof_spec_witness :
    ([] : Bytes) <:+ [3, 0, 0, 0, 1] :=
  fixed_width_eof_spec.2.2.2.2.2.2.2.2.2.2.2.2 [3, 0, 0, 0, 1] (.Integer 1) [] (by rfl)

/-- C9: a UTF-8 constant is a 16-bit length followed by that many bytes
decoded as UTF-8 text: `\x01\x00\x05Hello` decodes to the text "Hello"
(as its Unicode scalar values); a length-complete buffer whose content
bytes are invalid UTF-8 (such as `\x01\x00\x02\xc3\x28`) fails with the
`Utf8` error, not `Eof` — and this holds for every length-complete invalid
body; the text accepted on success is always the full decode of the
declared content bytes, never a partial prefix. -/
theorem utf8_constant_spec :
    (Constant.deserialize [1, 0, 5, 72, 101, 108, 108, 111] =
        .ok (.Utf8 (strCodes "Hello"), []))
    ∧ (Constant.deserialize [1, 0, 2, 0xc3, 0x28] = .error .Utf8)
    ∧ (∀ data : Bytes, 2 ≤ data.length → readU16 data ≤ (data.drop 2).length →
        utf8Decode ((data.drop 2).take (readU16 data)) = none →
        deserialize_utf8 data = .error .Utf8)
    ∧ (∀ (data rest : Bytes) (s : List Nat),
        deserialize_utf8 data = .ok (.Utf8 s, rest) →
        utf8Decode ((data.drop 2).take (readU16 data)) = some s) := by
  refine ⟨by rfl, by rfl, ?_, ?_⟩
  · intro data h2 hlen hnone
    simp only [deserialize_utf8]
    rw [if_neg (by omega), if_neg (by omega), hnone]
  · intro data rest s h
    simp only [deserialize_utf8] at h
    split at h
    · simp at h
    · split at h
      · simp at h
      · split at h
        · rename_i s2 heq
          simp only [Except.ok.injEq, Prod.mk.injEq, Constant.Utf8.injEq] at h
          rw [heq, h.1]
        · simp at h

/-- C9 witness: the invalid two-octet body `\xc3\x28` under a correct
length fails with the `Utf8` error through the general conjunct. -/
theorem utf8_constant_spec_witness :
    deserialize_utf8 [0, 2, 195, 40] = .error .Utf8 :=
  utf8_constant_spec.2.2.1 [0, 2, 195, 40] (by decide) (by decide) (by decide)

/-- C10: the constant decoder performs no validation of embedded pool-index
values: for ClassRef, StringRef, FieldRef, MethodRef, InterfaceMethodRef,
MethodHandle, MethodType and InvokeDynamic entries, every 16-bit index
value (all byte pairs, so all of 0–65535, including 0 and values larger
than any pool) is accepted and stored verbatim at decode time; validity of
an index is checked only by the resolver (`ConstantIndex.lookup`), which
for example rejects index 0 against every pool. -/
theorem index_verbatim_spec (i1 i2 i3 i4 : Nat) (rest : Bytes)
    (_h1 : i1 ≤ 255) (_h2 : i2 ≤ 255) (_h3 : i3 ≤ 255) (_h4 : i4 ≤ 255) :
    (Constant.deserialize (7 :: i1 :: i2 :: rest) = .ok (.ClassRef ⟨i1 * 256 + i2⟩, rest))
    ∧ (Constant.deserialize (8 :: i1 :: i2 :: rest) = .ok (.StringRef ⟨i1 * 256 + i2⟩, rest))
    ∧ (Constant.deserialize (9 :: i1 :: i2 :: i3 :: i4 :: rest) =
        .ok (.FieldRef ⟨i1 * 256 + i2⟩ ⟨i3 * 256 + i4⟩, rest))
    ∧ (Constant.deserialize (10 :: i1 :: i2 :: i3 :: i4 :: rest) =
        .ok (.MethodRef ⟨i1 * 256 + i2⟩ ⟨i3 * 256 + i4⟩, rest))
    ∧ (Constant.deserialize (11 :: i1 :: i2 :: i3 :: i4 :: rest) =
        .ok (.InterfaceMethodRef ⟨i1 * 256 + i2⟩ ⟨i3 * 256 + i4⟩, rest))
    ∧ (Constant.deserialize (15 :: 1 :: i1 :: i2 :: rest) =
        .ok (.MethodHandleRef (.GetField ⟨i1 * 256 + i2⟩), rest))
    ∧ (Constant.deserialize (16 :: i1 :: i2 :: rest) =
        .ok (.MethodType ⟨i1 * 256 + i2⟩, rest))
    ∧ (Constant.deserialize (18 :: i1 :: i2 :: i3 :: i4 :: rest) =
        .ok (.InvokeDynamicInfo ⟨i1 * 256 + i2⟩ ⟨i3 * 256 + i4⟩, rest))
    ∧ (∀ pool : List Constant, (ConstantIndex.mk 0).lookup pool = .error .ZeroIndex) := by
  refine ⟨?_, ?_, ?_, ?_, ?_, ?_, ?_, ?_, fun pool => rfl⟩
  · simp [Constant.deserialize_cons, deserialize_classref, deserialize_constant_index_cons]
  · simp [Constant.deserialize_cons, deserialize_string, deserialize_constant_index_cons]
  · simp [Constant.deserialize_cons, deserialize_fieldref, deserialize_constant_index_cons]
  · simp [Constant.deserialize_cons, deserialize_methodref, deserialize_constant_index_cons]
  · simp [Constant.deserialize_cons, deserialize_interface_method_ref, deserialize_constant_index_cons]
  · simp [Constant.deserialize_cons, deserialize_method_handle_ref, deserialize_constant_index_cons]
  · simp [Constant.deserialize_cons, deserialize_method_type, deserialize_constant_index_cons]
  · simp [Constant.deserialize_cons, deserialize_invoke_dynamic_info,
      deserialize_method_index_cons, deserialize_constant_index_cons]

/-- C10 witness: index 65535 (larger than any pool built from a class file)
and index 0 are both stored verbatim by the ClassRef decoder. -/
theorem index_verbatim_spec_witness :
    Constant.deserialize [7, 255, 255] = .ok (.ClassRef ⟨65535⟩, []) ∧
    Constant.deserialize [7, 0, 0] = .ok (.ClassRef ⟨0⟩, []) :=
  ⟨(index_verbatim_spec 255 255 0 0 [] (by decide) (by decide) (by decide) (by decide)).1,
   (index_verbatim_spec 0 0 0 0 [] (by decide) (by decide) (by decide) (by decide)).1⟩

/-- Reading a 16-bit value off two leading bytes. -/
lemma readU16_cons (a b : Nat) (l : Bytes) : readU16 (a :: b :: l) = a * 256 + b := rfl

/-- Reading a 32-bit value off four leading bytes. -/
lemma readU32_cons (a b c d : Nat) (l : Bytes) :
    readU32 (a :: b :: c :: d :: l) = (a * 256 + b) * 65536 + (c * 256 + d) := rfl

/-- Dropping two leading bytes. -/
lemma drop2_cons (a b : Nat) (l : Bytes) : List.drop 2 (a :: b :: l) = l := rfl

/-- Dropping four leading bytes. -/
lemma drop4_cons (a b c d : Nat) (l : Bytes) : List.drop 4 (a :: b :: c :: d :: l) = l := rfl

/-- Any Code body whose code array holds 2^32 - 1 bytes is accepted under
declared length 11: the body consumes 8 + (2^32 - 1) + 4 = 2^32 + 11
bytes, and the `as u32` cast truncates that to 11 before the comparison.
Stated over an arbitrary code array of that length so the proof never
evaluates a concrete four-billion-element list. -/
lemma deserialize_code_truncation (c : Bytes) (hc : c.length = 4294967295) :
    deserialize_code 1 ⟨1⟩ [] 11 ([0, 0, 0, 0, 255, 255, 255, 255] ++ (c ++ [0, 0, 0, 0])) =
      .ok (.Code ⟨1⟩ 0 0 c [] [], []) := by
  have hc2 : c.length = (255 * 256 + 255) * 65536 + (255 * 256 + 255) := by
    rw [hc]
  have htake : List.take ((255 * 256 + 255) * 65536 + (255 * 256 + 255)) (c ++ [0, 0, 0, 0]) = c :=
    List.take_left' hc2
  have hdrop : List.drop ((255 * 256 + 255) * 65536 + (255 * 256 + 255)) (c ++ [0, 0, 0, 0]) =
      [0, 0, 0, 0] := List.drop_left' hc2
  simp only [deserialize_code, List.cons_append, List.nil_append, drop2_cons, drop4_cons,
    readU16_cons, readU32_cons, htake, hdrop, List.length_cons, List.length_append,
    List.length_nil, hc, Nat.zero_mul, Nat.zero_add, Nat.add_zero,
    deserializeMultipleExceptionRows, deserializeMultipleAttributes]
  repeat rw [if_neg (by omega)]

/-- C1 counterexample: the claim as stated — "fails with LengthMismatch
whenever the byte count actually consumed differs from the declared
length" — is false of the program.  `hugeCodeBody` actually consumes
4294967307 bytes, which differs from 11, yet decoding it with declared
length 11 succeeds, because the source truncates the consumed count with
`as u32` (modulo 2^32, so 4294967307 compares as 11) before the check. -/
theorem code_length_spec_counterexample :
    deserialize_code 1 ⟨1⟩ [] 11 hugeCodeBody =
      .ok (.Code ⟨1⟩ 0 0 (List.replicate 4294967295 0) [] [], [])
    ∧ hugeCodeBody.length - List.length ([] : Bytes) ≠ 11 := by
  have hlen : hugeCodeBody.length = 4294967307 := by
    unfold hugeCodeBody
    rw [List.length_append, List.length_append, List.length_replicate]
    rfl
  exact ⟨deserialize_code_truncation (List.replicate 4294967295 0)
      (List.length_replicate 4294967295 0),
    by rw [hlen]; decide⟩

/-- C1 (amended): the Code-attribute decoder computes the byte count
actually consumed by the body (max_stack, max_locals, the length-prefixed
code bytes, the exception table and the recursively decoded
sub-attributes) truncated to 32 bits by the `as u32` cast, and fails with
`LengthMismatch` whenever that truncated count differs from the declared
length: every success consumes a count congruent to the declared length
modulo 2^32, and whenever the same body decodes successfully under some
declared length, any other declared length fails with `LengthMismatch`
carrying the truncated consumed count.  In particular the trivial Code
body succeeds exactly under declared length 12, while 11 or 13 (or any
other value) fail with `LengthMismatch`.  The unamended claim — comparing
the consumed count without the truncation — is refuted by
the counterexample below at `code_length = 2^32 - 1`. -/
theorem code_length_spec :
    (∀ (fuel : Nat) (attribute_name : ConstantIndex) (constants : List Constant)
        (declared : Nat) (data : Bytes) (attr : Attribute) (rest : Bytes),
        deserialize_code fuel attribute_name constants declared data = .ok (attr, rest) →
        (data.length - rest.length) % 4294967296 = declared
        ∧ ∀ declared2 : Nat, declared2 ≠ declared →
            deserialize_code fuel attribute_name constants declared2 data =
              .error (.LengthMismatch "Code attribute" declared2 declared))
    ∧ (∀ (fuel : Nat) (attribute_name : ConstantIndex) (constants : List Constant),
        deserialize_code (fuel + 1) attribute_name constants 12 trivialCodeBody =
          .ok (.Code attribute_name 0 0 [] [] [], []))
    ∧ (∀ (fuel declared : Nat) (attribute_name : ConstantIndex)
        (constants : List Constant), declared ≠ 12 →
        deserialize_code (fuel + 1) attribute_name constants declared trivialCodeBody =
          .error (.LengthMismatch "Code attribute" declared 12)) := by
  have h12 : ∀ (fuel : Nat) (attribute_name : ConstantIndex) (constants : List Constant),
      deserialize_code (fuel + 1) attribute_name constants 12 trivialCodeBody =
        .ok (.Code attribute_name 0 0 [] [] [], []) := by
    intro fuel attribute_name constants
    cases fuel <;> rfl
  have hmain : ∀ (fuel : Nat) (attribute_name : ConstantIndex) (constants : List Constant)
      (declared : Nat) (data : Bytes) (attr : Attribute) (rest : Bytes),
      deserialize_code fuel attribute_name constants declared data = .ok (attr, rest) →
      (data.length - rest.length) % 4294967296 = declared
      ∧ ∀ declared2 : Nat, declared2 ≠ declared →
          deserialize_code fuel attribute_name constants declared2 data =
            .error (.LengthMismatch "Code attribute" declared2 declared) := by
    intro fuel attribute_name constants declared data attr rest h
    match fuel with
    | 0 => simp [deserialize_code] at h
    | f + 1 =>
      simp only [deserialize_code] at h
      split at h
      · exact absurd h (by simp)
      rename_i hc1
      split at h
      · exact absurd h (by simp)
      rename_i hc2
      split at h
      · exact absurd h (by simp)
      rename_i hc3
      split at h
      · exact absurd h (by simp)
      rename_i hc4
      split at h
      · exact absurd h (by simp)
      rename_i hc5
      split at h
      · exact absurd h (by simp)
      rename_i exception_table d5 heq5
      split at h
      · exact absurd h (by simp)
      rename_i hc6
      split at h
      · exact absurd h (by simp)
      rename_i attributes d6 heq6
      split at h
      · exact absurd h (by simp)
      rename_i hguard
      push_neg at hguard
      simp only [Except.ok.injEq, Prod.mk.injEq] at h
      obtain ⟨-, rfl⟩ := h
      refine ⟨hguard, ?_⟩
      intro declared2 hne2
      simp only [deserialize_code, if_neg hc1, if_neg hc2, if_neg hc3, if_neg hc4,
        if_neg hc5, heq5, if_neg hc6, heq6]
      have hne3 : (data.length - d6.length) % 4294967296 ≠ declared2 := by omega
      rw [if_pos hne3, hguard]
  exact ⟨hmain, h12,
    fun fuel declared attribute_name constants hne =>
      (hmain (fuel + 1) attribute_name constants 12 trivialCodeBody
        (.Code attribute_name 0 0 [] [] []) [] (h12 fuel attribute_name constants)).2
        declared hne⟩

/-- C1 witness: the trivial Code body consumes exactly 12 bytes (equal to
its truncated count), and declaring length 11 for it fails with
`LengthMismatch` (stated 11, inferred 12). -/
theorem code_length_spec_witness :
    (trivialCodeBody.length - List.length ([] : Bytes)) % 4294967296 = 12 ∧
    deserialize_code 2 ⟨1⟩ [] 11 trivialCodeBody =
      .error (.LengthMismatch "Code attribute" 11 12) :=
  ⟨(code_length_spec.1 2 ⟨1⟩ [] 12 trivialCodeBody (.Code ⟨1⟩ 0 0 [] [] []) []
      (by rfl)).1,
   code_length_spec.2.2 1 11 ⟨1⟩ [] (by decide)⟩
